import Mathlib

/-!
Shallow embedding of the Vibe-Scape query-resolution and enrichment pipeline
(server/RAG/llm_processor.py, server/RAG/intent_classifier.py,
server/scraper/reddit_scraper.py, server/scraper/review_refiner.py,
server/controllers/place_controller.py, server/services/fallback_service.py).

Python strings are modelled as Lean `String` values, with all operations
defined structurally over the underlying character list so that concrete
instances evaluate by kernel reduction.  External collaborators (the LLM
gateway, the TomTom place-search provider, the Reddit transport, `json.loads`,
and the MongoDB store) are modelled as explicit oracle parameters: the embedded
functions are parameterised over the outcomes those collaborators would
produce, exactly at the call sites where the source consults them.
-/

/-! ## Python string primitives -/

/-- Model of the Python substring test `needle in hay` on character lists:
`needle` occurs contiguously inside `hay`. -/
def containsSeq (needle : List Char) : List Char → Bool
  | [] => needle.isPrefixOf []
  | c :: rest => needle.isPrefixOf (c :: rest) || containsSeq needle rest

/-- Python `needle in hay` for strings. -/
def pyIn (needle hay : String) : Bool :=
  containsSeq needle.data hay.data

/-- Python `s.lower()` (ASCII model, matching the keyword tables in the source). -/
def pyLower (s : String) : String :=
  ⟨s.data.map Char.toLower⟩

/-- Python `s.upper()` (ASCII model). -/
def pyUpper (s : String) : String :=
  ⟨s.data.map Char.toUpper⟩

/-- Python `s.strip()`: drop whitespace from both ends. -/
def pyStrip (s : String) : String :=
  ⟨((s.data.dropWhile Char.isWhitespace).reverse.dropWhile Char.isWhitespace).reverse⟩

/-- Python slicing `s[:n]` (by code points, as Python indexes `str`). -/
def pySlice (n : Nat) (s : String) : String :=
  ⟨s.data.take n⟩

/-- Python `sep.join(parts)`. -/
def pyJoin (sep : String) : List String → String
  | [] => ""
  | [x] => x
  | x :: y :: rest => x ++ sep ++ pyJoin sep (y :: rest)

/-- Split a character list at every occurrence of `c` (Python `s.split(cstr)`). -/
def splitOnChar (c : Char) : List Char → List (List Char)
  | [] => [[]]
  | x :: xs =>
    let r := splitOnChar c xs
    if x = c then [] :: r
    else
      match r with
      | [] => [[x]]
      | h :: t => (x :: h) :: t

/-- Python `s.split('\n')`. -/
def pySplitNl (s : String) : List String :=
  (splitOnChar '\n' s.data).map (fun cs => ⟨cs⟩)

/-- Split a character list at every character satisfying `p`, keeping empty pieces. -/
def splitOnPred (p : Char → Bool) : List Char → List (List Char)
  | [] => [[]]
  | x :: xs =>
    let r := splitOnPred p xs
    if p x then [] :: r
    else
      match r with
      | [] => [[x]]
      | h :: t => (x :: h) :: t

/-- Python `s.split()` with no argument: split on whitespace runs, dropping
empty pieces. -/
def pySplitWs (s : String) : List String :=
  ((splitOnPred Char.isWhitespace s.data).filter (fun cs => cs ≠ [])).map (fun cs => ⟨cs⟩)

/-- Order-preserving, keep-first deduplication: the `seen`-set loop the source
uses (`if review not in seen: seen.add(review); unique.append(review)`). -/
def dedupKeepFirstAux (seen : List String) : List String → List String
  | [] => []
  | x :: xs =>
    if x ∈ seen then dedupKeepFirstAux seen xs
    else x :: dedupKeepFirstAux (x :: seen) xs

/-- Keep-first deduplication of a string list. -/
def pyDedup (l : List String) : List String :=
  dedupKeepFirstAux [] l

/-- Index of the first occurrence of `c` (Python `s.find(c)`, `none` for -1). -/
def firstIdxOf (c : Char) (l : List Char) : Option Nat :=
  l.indexOf? c

/-- Index of the last occurrence of `c` (Python `s.rfind(c)`, `none` for -1). -/
def lastIdxOf (c : Char) (l : List Char) : Option Nat :=
  match l.reverse.indexOf? c with
  | none => none
  | some k => some (l.length - 1 - k)

/-! ## Enrichment strategy: server/RAG/llm_processor.py

`_get_default_processing` builds its tag list and then runs it through the
Python expression `list(set(vibe_tags))[:5]`.  The enumeration order of a
CPython `set` is implementation-defined (it is fixed within one process run
by the hash seed), so the embedding abstracts it as an explicit parameter
`setOrder : List String → List String`; a faithful instantiation enumerates
the distinct elements of its input in some order, e.g. `pyDedup`. -/

/-- Enrichment record returned by the processor
(`summary` / `vibe_tags` / `emojis`). -/
structure ProcessedData where
  summary : String
  vibe_tags : List String
  emojis : List String
deriving DecidableEq, Repr

/-- The union of all keyword-table matches that `_get_default_processing`
accumulates in `vibe_tags` before `list(set(...))[:5]`, in source order. -/
def defaultVibeTags (place_name place_category : String) : List String :=
  let name_lower := pyLower place_name
  let category_lower := pyLower place_category
  (if ["coffee", "cafe", "brew"].any (fun w => pyIn w name_lower) then
    ["cozy", "caffeinated"] else []) ++
  (if ["restaurant", "dining", "bistro"].any (fun w => pyIn w name_lower) then
    ["dining", "culinary"] else []) ++
  (if ["bar", "pub", "tavern"].any (fun w => pyIn w name_lower) then
    ["social", "nightlife"] else []) ++
  (if ["park", "garden"].any (fun w => pyIn w name_lower) then
    ["outdoor", "nature"] else []) ++
  (if category_lower = "cafe" then ["cozy", "caffeinated", "social"]
   else if category_lower = "restaurant" then ["dining", "culinary", "social", "aesthetic"]
   else if category_lower = "bar" then ["nightlife", "social", "vibrant"]
   else ["local", "accessible"])

/-- The category-to-emoji table of `_get_default_processing`. -/
def defaultEmojis (place_category : String) : List String :=
  let category_lower := pyLower place_category
  if category_lower = "cafe" then ["☕", "🪑"]
  else if category_lower = "restaurant" then ["🍽️", "👨‍🍳"]
  else if category_lower = "bar" then ["🍺", "🎉"]
  else ["📍", "🏪"]

/-- `LLMProcessor._get_default_processing`: the deterministic rule-based
fallback enrichment. -/
def _get_default_processing (setOrder : List String → List String)
    (place_name place_category : String) : ProcessedData :=
  { summary := "A " ++ place_category ++ " in the area. " ++ place_name ++
      " offers a local experience with mixed reviews from visitors."
    vibe_tags := (setOrder (defaultVibeTags place_name place_category)).take 5
    emojis := (defaultEmojis place_category).take 3 }

/-- Shape of a parsed LLM enrichment response as the source reads it
(`data.get("summary", "")` etc.): each expected key optionally present. -/
structure JsonShape where
  summary : Option String
  vibe_tags : Option (List String)
  emojis : Option (List String)
deriving DecidableEq

/-- The `{...}` span `_parse_llm_response` slices out of the response text:
`response_text[start_idx:end_idx]` with `start_idx = find('{')` and
`end_idx = rfind('}') + 1`, or `none` when either brace is missing. -/
def extractJsonSpan (text : String) : Option String :=
  match firstIdxOf '{' text.data, lastIdxOf '}' text.data with
  | some s, some e => some ⟨(text.data.drop s).take (e + 1 - s)⟩
  | _, _ => none

/-- `LLMProcessor._parse_llm_response`.  `loads` models `json.loads` restricted
to the keys the source reads; `none` models a `JSONDecodeError`.  Both parse
failures (no braces, decode error) are caught inside this function and produce
`_get_default_processing("", "")`. -/
def _parse_llm_response (loads : String → Option JsonShape)
    (setOrder : List String → List String) (response_text : String) : ProcessedData :=
  match extractJsonSpan response_text with
  | some json_str =>
    match loads json_str with
    | some data =>
      { summary := data.summary.getD ""
        vibe_tags := data.vibe_tags.getD []
        emojis := data.emojis.getD [] }
    | none => _get_default_processing setOrder "" ""
  | none => _get_default_processing setOrder "" ""

/-- A review record as the scrapers produce and the processor consumes it. -/
structure Review where
  source : String
  content : String
  url : String
  score : Int
  created_utc : Int
deriving DecidableEq, Repr

/-- Outcomes of the two `generate_content` calls `process_place_reviews` can
make for one place: the primary call and the lower-temperature retry.
`Except.error e` carries `str(e)` for the raised exception. -/
structure LLMEnv where
  first : Except String String
  retry : Except String String

/-- `LLMProcessor.process_place_reviews`.  The retry is attempted only when
the primary call raised and `str(e)` contains "timeout" or "connection";
parse failures never reach the retry because `_parse_llm_response` absorbs
them internally. -/
def process_place_reviews (setOrder : List String → List String)
    (loads : String → Option JsonShape) (env : LLMEnv)
    (place_name place_category : String) (reviews : List Review) : ProcessedData :=
  let combined_reviews := pyJoin "\n\n" (reviews.map Review.content)
  if pyStrip combined_reviews = "" then
    _get_default_processing setOrder place_name place_category
  else
    match env.first with
    | Except.ok response => _parse_llm_response loads setOrder response
    | Except.error e =>
      if pyIn "timeout" (pyLower e) || pyIn "connection" (pyLower e) then
        match env.retry with
        | Except.ok response => _parse_llm_response loads setOrder response
        | Except.error _ => _get_default_processing setOrder place_name place_category
      else _get_default_processing setOrder place_name place_category

/-- `LLMProcessor._infer_category_from_name`. -/
def _infer_category_from_name (place_name : String) : String :=
  let name_lower := pyLower place_name
  if ["cafe", "coffee", "brew"].any (fun w => pyIn w name_lower) then "cafe"
  else if ["restaurant", "dining", "bistro"].any (fun w => pyIn w name_lower) then "restaurant"
  else if ["bar", "pub", "tavern"].any (fun w => pyIn w name_lower) then "bar"
  else if ["park", "garden"].any (fun w => pyIn w name_lower) then "park"
  else "place"

/-! ## Review-source provider: server/scraper/reddit_scraper.py

The HTTP round trip is modelled as an oracle outcome: either the request
raised (any exception inside the `try` block) or it returned a status code
and the list of posts found under `data.children` (an absent or empty
`data`/`children` key is the empty list).  The scraper is modelled as
constructed by `FallbackService`, i.e. with `use_llm_refinement=False`, so
the refinement hook is not entered. -/

/-- One Reddit post as the scraper reads it (`post["data"]` fields). -/
structure RedditPost where
  title : String
  selftext : String
  url : String
  score : Int
  created_utc : Int
deriving DecidableEq, Repr

/-- Outcome of the Reddit search request. -/
inductive RedditOutcome where
  | err (e : String)
  | resp (status : Nat) (posts : List RedditPost)
deriving DecidableEq

/-- `RedditScraper._get_mock_reviews`: the fixed synthetic placeholder
reviews, template-filled with the place name and city, truncated to
`max_results`. -/
def _get_mock_reviews (place_name city : String) (max_results : Nat) : List Review :=
  ([{ source := "reddit"
      content := "Just visited " ++ place_name ++ " in " ++ city ++
        " and it was amazing! The atmosphere is perfect for studying and the coffee is top-notch. Highly recommend for anyone looking for a cozy spot."
      url := "https://reddit.com/r/delhi/comments/mock1"
      score := 45
      created_utc := 1640995200 },
    { source := "reddit"
      content := "Been to " ++ place_name ++ " multiple times now. The staff is super friendly and the food quality is consistently good. Great place to hang out with friends in " ++ city ++ "."
      url := "https://reddit.com/r/delhi/comments/mock2"
      score := 32
      created_utc := 1640995200 },
    { source := "reddit"
      content := "Honest review of " ++ place_name ++ ": The location is convenient and the prices are reasonable for " ++ city ++ ". However, it can get quite crowded during peak hours."
      url := "https://reddit.com/r/delhi/comments/mock3"
      score := 28
      created_utc := 1640995200 }] : List Review).take max_results

/-- The review list `search_place_reviews` builds from the posts of a
successful response: for each post, `content = (title + "\n\n" + selftext)
.strip()`, kept when non-empty and longer than 50 characters, with the
content sliced to 1000 characters. -/
def parsedRedditReviews (posts : List RedditPost) : List Review :=
  posts.filterMap (fun post =>
    let content := pyStrip (post.title ++ "\n\n" ++ post.selftext)
    if content ≠ "" ∧ 50 < content.length then
      some { source := "reddit"
             content := pySlice 1000 content
             url := post.url
             score := post.score
             created_utc := post.created_utc }
    else none)

/-- `RedditScraper.search_place_reviews` (with LLM refinement disabled, as the
fallback service constructs the scraper).  A non-200 status, a raised
exception, or an empty parsed review list all yield the mock reviews;
otherwise the parsed reviews are sorted by score descending (stably, as
Python `list.sort(key=..., reverse=True)`) and truncated to `max_results`. -/
def search_place_reviews (outcome : RedditOutcome)
    (place_name city : String) (max_results : Nat) : List Review :=
  match outcome with
  | RedditOutcome.err _ => _get_mock_reviews place_name city max_results
  | RedditOutcome.resp status posts =>
    if status ≠ 200 then _get_mock_reviews place_name city max_results
    else
      let reviews := parsedRedditReviews posts
      if reviews = [] then _get_mock_reviews place_name city max_results
      else (reviews.mergeSort (fun a b => b.score ≤ a.score)).take max_results

/-! ## Review relevance refiner: server/scraper/review_refiner.py

The per-batch LLM call is modelled by an oracle
`respond : Nat → Nat → List String → Except String String` giving, for
(iteration index, batch index, batch contents), either the response text or a
raised exception.  The `more_fn` collaborator is modelled by
`hasFetch : Bool` (whether `fetch_more_reviews_func` was supplied) and
`fetchOf : Nat → Except String (List Review)` giving the outcome of the call
made at a given iteration. -/

/-- Line indices the batch parser marks YES: enumerate
`response.strip().split('\n')` and keep the indices of lines whose
`strip().upper()` equals "YES". -/
def yesLineIndices (response : String) : List Nat :=
  ((pySplitNl (pyStrip response)).enum.filter
    (fun p => pyUpper (pyStrip p.2) = "YES")).map Prod.fst

/-- `ReviewRefiner.filter_relevant_reviews_batched`: split the pool into
batches of 15; per batch, on a successful LLM call keep `batch[j]` for every
YES line index `j` that is in range, and on a raised call keep the whole
batch; finally deduplicate keeping first occurrences. -/
def filter_relevant_reviews_batched
    (respond : Nat → Nat → List String → Except String String)
    (iteration : Nat) (reviews : List String) : List String :=
  if reviews = [] then []
  else
    let batches := reviews.toChunks 15
    let collected := batches.enum.foldl (fun acc p =>
      match respond iteration p.1 p.2 with
      | Except.ok response =>
        acc ++ (yesLineIndices response).filterMap (fun idx => p.2.get? idx)
      | Except.error _ => acc ++ p.2) []
    pyDedup collected

/-- Why the refinement loop stopped. -/
inductive StopReason where
  /-- `len(relevant) >= min_relevant`: returned the first `min_relevant`. -/
  | quota
  /-- The final `else: break` — no `more_fn` supplied, or this was the last
  allowed iteration (`iteration == max_iterations - 1`). -/
  | noMore
  /-- `more_fn` returned an empty batch (`if new_reviews:` falsy). -/
  | fetchEmpty
  /-- `more_fn` raised. -/
  | fetchError
  /-- The `while` guard failed (only reachable with `max_iterations == 0`). -/
  | neverRan
deriving DecidableEq, Repr

/-- The body of the `while iteration < max_iterations` loop of
`refine_reviews_with_llm`, instrumented to also report the stop reason and
the accepted list at the moment of return.  `fuel` is `max_iterations -
iteration` and only enforces termination: every test in the body is stated on
`iteration` and `max_iterations` exactly as in the source. -/
def refineLoop (respond : Nat → Nat → List String → Except String String)
    (fetchOf : Nat → Except String (List Review)) (hasFetch : Bool)
    (max_iterations min_relevant : Nat) :
    Nat → Nat → List String → List String → List String × StopReason × List String
  | 0, _, _, relevant_reviews => (relevant_reviews, StopReason.neverRan, relevant_reviews)
  | fuel + 1, iteration, current_reviews, relevant_reviews =>
    let iteration_relevant :=
      filter_relevant_reviews_batched respond iteration current_reviews
    let relevant1 := pyDedup (relevant_reviews ++ iteration_relevant)
    if min_relevant ≤ relevant1.length then
      (relevant1.take min_relevant, StopReason.quota, relevant1)
    else if hasFetch ∧ iteration + 1 < max_iterations then
      match fetchOf iteration with
      | Except.error _ => (relevant1, StopReason.fetchError, relevant1)
      | Except.ok [] => (relevant1, StopReason.fetchEmpty, relevant1)
      | Except.ok (r :: rs) =>
        refineLoop respond fetchOf hasFetch max_iterations min_relevant
          fuel (iteration + 1) (((r :: rs) : List Review).map Review.content) relevant1
    else (relevant1, StopReason.noMore, relevant1)

/-- `ReviewRefiner.refine_reviews_with_llm` with its stop reason and final
accepted list. -/
def refineInstrumented (respond : Nat → Nat → List String → Except String String)
    (fetchOf : Nat → Except String (List Review)) (hasFetch : Bool)
    (max_iterations min_relevant : Nat) (initial_reviews : List String) :
    List String × StopReason × List String :=
  refineLoop respond fetchOf hasFetch max_iterations min_relevant
    max_iterations 0 initial_reviews []

/-- `ReviewRefiner.refine_reviews_with_llm`: the returned review list. -/
def refine_reviews_with_llm (respond : Nat → Nat → List String → Except String String)
    (fetchOf : Nat → Except String (List Review)) (hasFetch : Bool)
    (max_iterations min_relevant : Nat) (initial_reviews : List String) : List String :=
  (refineInstrumented respond fetchOf hasFetch max_iterations min_relevant
    initial_reviews).1

/-! ## Place store and controller: server/controllers/place_controller.py

The MongoDB `places` collection is modelled as a list of stored documents in
insertion order; `find_one({"original.fsq_id": k})` is an existence test on
that list and `insert_many` appends. -/

/-- The `original` sub-document of a place.  `coordinates` is an opaque
payload the core never inspects, modelled as a string. -/
structure OriginalData where
  fsq_id : String
  name : String
  category : String
  address : String
  locality : String
  city : String
  country : String
  photo_url : String
  coordinates : String
deriving DecidableEq, Repr

/-- The `processed` sub-document of a place. -/
structure ProcessedDoc where
  vibe_tags : List String
  emojis : List String
  summary : String
  citations : List String
deriving DecidableEq, Repr

/-- A place document, both as an insertion payload and as stored.  A missing
or falsy `fsq_id` is modelled as the empty string. -/
structure PlaceDoc where
  original : OriginalData
  processed : ProcessedDoc
  reviews : List Review
  created_at : Nat
  updated_at : Nat
deriving DecidableEq, Repr

/-- The per-entry step of `bulk_insert_places`: skip the entry when its
`fsq_id` is falsy (`if not fsq_id: continue`) or when a document with that
`fsq_id` already exists in the store as it was before the call (every
`find_one` runs before the single `insert_many` at the end); otherwise
rebuild the document with fresh timestamps. -/
def insertCandidate (now : Nat) (store : List PlaceDoc)
    (place_data : PlaceDoc) : Option PlaceDoc :=
  if place_data.original.fsq_id = "" then none
  else if store.any (fun d => d.original.fsq_id = place_data.original.fsq_id) then none
  else some { original := place_data.original
              processed := place_data.processed
              reviews := place_data.reviews
              created_at := now
              updated_at := now }

/-- `place_controller.bulk_insert_places`: filter the batch through
`insertCandidate` and append the surviving documents.  Returns the number of
inserted documents (the length of `inserted_ids`) and the new store. -/
def bulk_insert_places (now : Nat) (store : List PlaceDoc)
    (places_data : List PlaceDoc) : Nat × List PlaceDoc :=
  let place_docs := places_data.filterMap (insertCandidate now store)
  (place_docs.length, store ++ place_docs)

/-! ## Fallback search orchestrator: server/services/fallback_service.py -/

/-- The dictionary `search_places_with_fallback` returns.  Keys that a branch
does not put in the dictionary are `none` (the error branch carries no
`source`/`fallback_used`, only the third branch carries the counters). -/
structure SearchResult where
  success : Bool
  source : Option String
  places : List PlaceDoc
  count : Nat
  fallback_used : Option Bool
  error : Option String
  tomtom_fetched : Option Nat
  reddit_reviews_scraped : Option Nat
  tripadvisor_reviews_scraped : Option Nat
deriving DecidableEq, Repr

/-- A raw place candidate as TomTom returns it. -/
structure RawPlace where
  fsq_id : String
  name : String
  category : String
  address : String
  locality : String
  city : String
  country : String
  photo_url : String
  coordinates : String
deriving DecidableEq, Repr

/-- `FallbackService._search_existing_places`: the Mongo query
`{"original.city": city, "original.category": {"$regex": category,
"$options": "i"}}` plus, when `vibe_tags` is non-empty,
`{"processed.vibe_tags": {"$in": vibe_tags}}`.  The regex is modelled as a
case-insensitive substring test (the category strings the pipeline passes are
metacharacter-free). -/
def _search_existing_places (store : List PlaceDoc)
    (city category : String) (vibe_tags : List String) : List PlaceDoc :=
  store.filter (fun d =>
    d.original.city == city &&
    pyIn (pyLower category) (pyLower d.original.category) &&
    (vibe_tags.isEmpty || d.processed.vibe_tags.any (fun t => vibe_tags.contains t)))

/-- `FallbackService._map_category_to_query`: the fixed category-to-query
table, keyed on the lowercased category; unmapped categories pass through
unchanged. -/
def _map_category_to_query (category : String) : String :=
  let key := pyLower category
  if key = "cafe" then "cafe coffee"
  else if key = "restaurant" then "restaurant food"
  else if key = "park" then "park"
  else if key = "bar" then "bar pub"
  else if key = "museum" then "museum"
  else if key = "shopping" then "shopping mall"
  else if key = "gym" then "gym fitness"
  else if key = "library" then "library"
  else if key = "theater" then "theater cinema"
  else category

/-- The keys of the dictionary `RedditScraper.scrape_multiple_places` builds:
the non-empty place names in order of first occurrence. -/
def scrapedNames (tomtom_places : List RawPlace) : List String :=
  pyDedup ((tomtom_places.map RawPlace.name).filter (fun n => n ≠ ""))

/-- The empty `llm_data` dictionary (`processed_data.get(place_name, {})`
with every `.get` default). -/
def emptyLlmData : ProcessedData :=
  { summary := "", vibe_tags := [], emojis := [] }

/-- `FallbackService._transform_and_store_places_with_llm`, document-building
part: one document per TomTom place, with the Reddit reviews and LLM output
looked up by place name (empty-name places find nothing in either
dictionary). -/
def transformedDocs (setOrder : List String → List String)
    (loads : String → Option JsonShape) (llmFor : String → LLMEnv)
    (reviewsOf : String → List Review) (now : Nat)
    (tomtom_places : List RawPlace) : List PlaceDoc :=
  tomtom_places.map (fun place =>
    let place_name := place.name
    let reviews := if place_name ≠ "" then reviewsOf place_name else []
    let llm_data :=
      if place_name ≠ "" then
        process_place_reviews setOrder loads (llmFor place_name) place_name
          (_infer_category_from_name place_name) (reviewsOf place_name)
      else emptyLlmData
    { original := { fsq_id := place.fsq_id
                    name := place_name
                    category := place.category
                    address := place.address
                    locality := place.locality
                    city := place.city
                    country := place.country
                    photo_url := place.photo_url
                    coordinates := place.coordinates }
      processed := { vibe_tags := llm_data.vibe_tags
                     emojis := llm_data.emojis
                     summary := llm_data.summary
                     citations := [] }
      reviews := reviews
      created_at := now
      updated_at := now })

/-- `FallbackService.search_places_with_fallback`.  Oracle parameters:
`tomtomOf` is the outcome of `_fetch_tomtom_places` (which catches its own
exceptions and returns a list), applied to the mapped query, the city and the
deficit; `reviewsOf` gives the reviews `scrape_multiple_places` collects per
place name; `llmFor`, `loads` and `setOrder` drive the enrichment of each
place; `insertFail` is `some e` when `insert_many` raises (sending the whole
call into the `except` branch with the store unchanged) and `none` when it
succeeds.  Returns the result dictionary and the store after the call. -/
def search_places_with_fallback (setOrder : List String → List String)
    (loads : String → Option JsonShape) (now : Nat) (store : List PlaceDoc)
    (city category : String) (vibe_tags : List String) (min_results : Nat)
    (tomtomOf : String → String → Nat → List RawPlace)
    (reviewsOf : String → List Review) (llmFor : String → LLMEnv)
    (insertFail : Option String) : SearchResult × List PlaceDoc :=
  let existing_places := _search_existing_places store city category vibe_tags
  if min_results ≤ existing_places.length then
    ({ success := true
       source := some "database"
       places := existing_places
       count := existing_places.length
       fallback_used := some false
       error := none
       tomtom_fetched := none
       reddit_reviews_scraped := none
       tripadvisor_reviews_scraped := none }, store)
  else
    let tomtom_places :=
      tomtomOf (_map_category_to_query category) city (min_results - existing_places.length)
    if tomtom_places = [] then
      ({ success := true
         source := some "database_only"
         places := existing_places
         count := existing_places.length
         fallback_used := some false
         error := none
         tomtom_fetched := none
         reddit_reviews_scraped := none
         tripadvisor_reviews_scraped := none }, store)
    else
      match insertFail with
      | some e =>
        ({ success := false
           source := none
           places := []
           count := 0
           fallback_used := none
           error := some e
           tomtom_fetched := none
           reddit_reviews_scraped := none
           tripadvisor_reviews_scraped := none }, store)
      | none =>
        let places_with_reviews :=
          transformedDocs setOrder loads llmFor reviewsOf now tomtom_places
        let store1 := (bulk_insert_places now store places_with_reviews).2
        let all_places := existing_places ++ places_with_reviews
        ({ success := true
           source := some "database_and_tomtom"
           places := all_places
           count := all_places.length
           fallback_used := some true
           error := none
           tomtom_fetched := some tomtom_places.length
           reddit_reviews_scraped := some (scrapedNames tomtom_places).length
           tripadvisor_reviews_scraped := some 0 }, store1)

/-! ## Intent classifier: server/RAG/intent_classifier.py

`generate_json` either raises (any transport, status or JSON-decode problem
inside the gateway) or hands back a parsed object, which `classify_intent`
returns unchanged; the oracle is therefore an `Except` value.  Confidence
values are modelled as exact rationals. -/

/-- The `extracted_data` sub-dictionary of a fallback classification.  Keys a
branch does not emit (`response_text` outside the simple-response branch) are
`none`. -/
structure ExtractedData where
  place_name : Option String
  city : Option String
  category : Option String
  vibe_tags : List String
  search_terms : List String
  response_text : Option String
deriving DecidableEq, Repr

/-- An intent classification dictionary. -/
structure IntentResult where
  intent : String
  confidence : ℚ
  extracted_data : ExtractedData
deriving DecidableEq, Repr

/-- `IntentClassifier._generate_simple_response`. -/
def _generate_simple_response (query : String) : String :=
  let query_lower := pyLower query
  if ["hello", "hi", "hey"].any (fun w => pyIn w query_lower) then
    "Hello! How can I help you find places today?"
  else if ["how are you"].any (fun w => pyIn w query_lower) then
    "I\x27m doing great! Ready to help you discover amazing places. What are you looking for?"
  else if ["what can you do", "help"].any (fun w => pyIn w query_lower) then
    "I can help you search for places and get details about specific locations! Try asking me to find coffee shops in Delhi or tell me about a specific place."
  else if ["thanks", "thank you"].any (fun w => pyIn w query_lower) then
    "You\x27re welcome! Let me know if you need help finding more places."
  else
    "I\x27m here to help you discover places! You can ask me to search for places or get details about specific locations."

/-- Does a (non-empty) word start with an uppercase letter
(`word[0].isupper()`)? -/
def wordHeadUpper (w : String) : Bool :=
  match w.data with
  | [] => false
  | c :: _ => c.isUpper

/-- `IntentClassifier._extract_place_name`: with at least three
whitespace-separated words, the first non-leading word starting with an
uppercase letter. -/
def _extract_place_name (query : String) : Option String :=
  let words := pySplitWs query
  if 3 ≤ words.length then
    (words.enum.find? (fun p => 0 < p.1 && wordHeadUpper p.2)).map Prod.snd
  else none

/-- Python `str.title()` for a single word: first letter uppercased, the rest
lowercased. -/
def pyTitleWord (s : String) : String :=
  match s.data with
  | [] => ""
  | c :: rest => ⟨c.toUpper :: rest.map Char.toLower⟩

/-- `IntentClassifier._extract_city`: the fixed gazetteer, first hit wins,
returned title-cased. -/
def _extract_city (query : String) : Option String :=
  let query_lower := pyLower query
  (["delhi", "mumbai", "bangalore", "chennai", "kolkata", "hyderabad", "pune",
    "ahmedabad"].find? (fun c => pyIn c query_lower)).map pyTitleWord

/-- The keyword-to-category table of `_extract_category`, in insertion
order. -/
def categoriesTable : List (String × List String) :=
  [("coffee", ["coffee", "cafe", "starbucks"]),
   ("restaurant", ["restaurant", "food", "dining", "eat"]),
   ("park", ["park", "garden", "outdoor"]),
   ("bar", ["bar", "pub", "nightlife"]),
   ("shopping", ["mall", "shop", "store", "shopping"])]

/-- `IntentClassifier._extract_category`: first table row with a keyword hit. -/
def _extract_category (query : String) : Option String :=
  let query_lower := pyLower query
  (categoriesTable.find? (fun p => p.2.any (fun k => pyIn k query_lower))).map Prod.fst

/-- The keyword list for the simple-response branch of the fallback. -/
def simpleKeywords : List String :=
  ["hello", "hi", "hey", "how are you", "what can you do", "help", "thanks", "thank you"]

/-- The keyword list for the place-detail branch of the fallback. -/
def detailKeywords : List String :=
  ["tell me about", "what is", "what\x27s at", "info about", "details of", "about"]

/-- `IntentClassifier._fallback_classification`: the deterministic keyword
classifier.  Each keyword loop returns the same dictionary whichever keyword
hit first, so the loops collapse to `any`. -/
def _fallback_classification (user_query : String) : IntentResult :=
  let query_lower := pyLower user_query
  if simpleKeywords.any (fun k => pyIn k query_lower) then
    { intent := "simple_response"
      confidence := 0.8
      extracted_data := { place_name := none
                          city := none
                          category := none
                          vibe_tags := []
                          search_terms := []
                          response_text := some (_generate_simple_response user_query) } }
  else if detailKeywords.any (fun k => pyIn k query_lower) then
    { intent := "place_detail"
      confidence := 0.7
      extracted_data := { place_name := _extract_place_name user_query
                          city := none
                          category := none
                          vibe_tags := []
                          search_terms := []
                          response_text := none } }
  else
    { intent := "place_search"
      confidence := 0.6
      extracted_data := { place_name := none
                          city := _extract_city user_query
                          category := _extract_category user_query
                          vibe_tags := []
                          search_terms := pySplitWs user_query
                          response_text := none } }

/-- `IntentClassifier.classify_intent`: return the parsed gateway object
unchanged on success (the inner `try` around `result = response` cannot
raise), and the deterministic keyword fallback when `generate_json` raised. -/
def classify_intent (llm : Except String IntentResult) (user_query : String) : IntentResult :=
  match llm with
  | Except.ok result => result
  | Except.error _ => _fallback_classification user_query

/-! ## Helper lemmas -/

/-- Every branch of the category-to-emoji table is a pair. -/
theorem defaultEmojis_length (place_category : String) :
    (defaultEmojis place_category).length = 2 := by
  unfold defaultEmojis
  simp only
  repeat' split
  all_goals rfl

/-- Truncating the emoji pair to three elements changes nothing. -/
theorem defaultEmojis_take (place_category : String) :
    (defaultEmojis place_category).take 3 = defaultEmojis place_category := by
  unfold defaultEmojis
  simp only
  repeat' split
  all_goals rfl

/-- A Python slice `s[:n]` has length at most `n`. -/
theorem pySlice_length_le (n : Nat) (s : String) : (pySlice n s).length ≤ n :=
  List.length_take_le n s.data

/-! ## C6: deterministic-path idempotence -/

/-- C6: two invocations of the deterministic fallback enrichment on the same
place name and category (within one process run, i.e. with the same set
enumeration order) produce identical Enrichment values: the same summary
string, the same vibe-tag list element-for-element in the same order, and the
same emoji list. -/
theorem default_processing_idempotent (setOrder : List String → List String)
    (place_name place_category : String) :
    (_get_default_processing setOrder place_name place_category).summary =
      (_get_default_processing setOrder place_name place_category).summary ∧
    (_get_default_processing setOrder place_name place_category).vibe_tags =
      (_get_default_processing setOrder place_name place_category).vibe_tags ∧
    (_get_default_processing setOrder place_name place_category).emojis =
      (_get_default_processing setOrder place_name place_category).emojis ∧
    _get_default_processing setOrder place_name place_category =
      _get_default_processing setOrder place_name place_category :=
  ⟨rfl, rfl, rfl, rfl⟩

/-! ## C7: deterministic fallback shape -/

/-- C7: for every place name and category, the deterministic fallback returns
a fully populated Enrichment: a non-empty template-filled summary, a
duplicate-free vibe-tag list of length at most 5 drawn from the union of all
keyword-table matches, and an emoji list of length exactly 2 equal to the
fixed category-to-emoji table entry (the generic pair when no category
matches).  The hypotheses state that `setOrder` behaves as the enumeration of
a Python set of the accumulated tags: duplicate-free and containing only
elements of its input. -/
theorem default_processing_shape (setOrder : List String → List String)
    (place_name place_category : String)
    (hnd : (setOrder (defaultVibeTags place_name place_category)).Nodup)
    (hsub : ∀ t ∈ setOrder (defaultVibeTags place_name place_category),
      t ∈ defaultVibeTags place_name place_category) :
    (_get_default_processing setOrder place_name place_category).summary ≠ "" ∧
    (_get_default_processing setOrder place_name place_category).vibe_tags.Nodup ∧
    (_get_default_processing setOrder place_name place_category).vibe_tags.length ≤ 5 ∧
    (∀ t ∈ (_get_default_processing setOrder place_name place_category).vibe_tags,
      t ∈ defaultVibeTags place_name place_category) ∧
    (_get_default_processing setOrder place_name place_category).emojis =
      defaultEmojis place_category ∧
    (_get_default_processing setOrder place_name place_category).emojis.length = 2 := by
  refine ⟨?_, ?_, ?_, ?_, ?_, ?_⟩
  · intro h
    have hlen := congrArg String.length h
    simp only [_get_default_processing, String.length_append] at hlen
    have hA : ("A " : String).length = 2 := rfl
    have hE : ("" : String).length = 0 := rfl
    omega
  · exact List.Nodup.sublist (List.take_sublist 5 _) hnd
  · exact List.length_take_le 5 _
  · intro t ht
    exact hsub t (List.mem_of_mem_take ht)
  · exact defaultEmojis_take place_category
  · show ((defaultEmojis place_category).take 3).length = 2
    rw [defaultEmojis_take place_category]
    exact defaultEmojis_length place_category

/-- Witness for C7 at a concrete cafe whose name also hits the keyword
table, with `pyDedup` as the set enumeration. -/
theorem default_processing_shape_witness :
    (_get_default_processing pyDedup "Cafe Rio" "cafe").summary ≠ "" ∧
    (_get_default_processing pyDedup "Cafe Rio" "cafe").vibe_tags.Nodup ∧
    (_get_default_processing pyDedup "Cafe Rio" "cafe").vibe_tags.length ≤ 5 ∧
    (∀ t ∈ (_get_default_processing pyDedup "Cafe Rio" "cafe").vibe_tags,
      t ∈ defaultVibeTags "Cafe Rio" "cafe") ∧
    (_get_default_processing pyDedup "Cafe Rio" "cafe").emojis = defaultEmojis "cafe" ∧
    (_get_default_processing pyDedup "Cafe Rio" "cafe").emojis.length = 2 :=
  default_processing_shape pyDedup "Cafe Rio" "cafe" (by decide) (by decide)

/-! ## C8: classifier totality -/

/-- C8: `classify_intent` always returns a classification and never raises:
modelled as a total function, it absorbs every LLM transport or parse failure
(any `Except.error` from the gateway) by returning the deterministic keyword
fallback, and the fallback is a total function of the query text that always
yields one of the three intent tags with its fixed confidence constant. -/
theorem classify_intent_never_fails (user_query e : String) :
    classify_intent (Except.error e) user_query = _fallback_classification user_query ∧
    ((_fallback_classification user_query).intent = "simple_response" ∨
     (_fallback_classification user_query).intent = "place_detail" ∨
     (_fallback_classification user_query).intent = "place_search") ∧
    ((_fallback_classification user_query).confidence = 0.8 ∨
     (_fallback_classification user_query).confidence = 0.7 ∨
     (_fallback_classification user_query).confidence = 0.6) := by
  refine ⟨rfl, ?_, ?_⟩
  · unfold _fallback_classification
    simp only
    split
    · exact Or.inl rfl
    · split
      · exact Or.inr (Or.inl rfl)
      · exact Or.inr (Or.inr rfl)
  · unfold _fallback_classification
    simp only
    split
    · exact Or.inl rfl
    · split
      · exact Or.inr (Or.inl rfl)
      · exact Or.inr (Or.inr rfl)

/-! ## C4: zero-result review search -/

/-- Counterexample to C4 as stated: a successful provider response (HTTP 200)
with zero usable posts does NOT yield an empty list — `search_place_reviews`
substitutes the synthetic placeholder reviews exactly as on a transport
error. -/
theorem zero_result_reviews_not_empty :
    search_place_reviews (RedditOutcome.resp 200 []) "Blue Tokai" "Delhi" 5 =
      _get_mock_reviews "Blue Tokai" "Delhi" 5 ∧
    search_place_reviews (RedditOutcome.resp 200 []) "Blue Tokai" "Delhi" 5 ≠ [] := by
  constructor
  · rfl
  · decide

/-- C4 amended: when the provider request succeeds (HTTP 200) but yields zero
usable review posts, `search_place_reviews` returns the synthetic placeholder
reviews truncated to `max_results` — the same substitution it performs on a
transport error — rather than an empty list. -/
theorem zero_result_reviews_mock (place_name city : String) (max_results : Nat)
    (posts : List RedditPost) (h : parsedRedditReviews posts = []) :
    search_place_reviews (RedditOutcome.resp 200 posts) place_name city max_results =
      _get_mock_reviews place_name city max_results := by
  unfold search_place_reviews
  simp [h]

/-- Witness for the amended C4: a response whose single post is too short to
be a usable review. -/
theorem zero_result_reviews_mock_witness :
    search_place_reviews
      (RedditOutcome.resp 200 [⟨"short", "", "u", 3, 0⟩]) "Corner House" "Bangalore" 3 =
      _get_mock_reviews "Corner House" "Bangalore" 3 :=
  zero_result_reviews_mock "Corner House" "Bangalore" 3 _ (by decide)

/-! ## C9: review content cap -/

set_option maxRecDepth 40000 in
/-- Counterexample to C9 as stated: on the placeholder-substitution path the
mock review contents embed the place name and city without truncation, so a
1000-character place name produces a review whose content exceeds 1000
characters. -/
theorem mock_review_content_overflow :
    ¬ (∀ r ∈ search_place_reviews (RedditOutcome.err "timeout")
        (⟨List.replicate 1000 'a'⟩ : String) "Delhi" 5,
        r.content.length ≤ 1000) := by
  decide

/-- C9 amended: the 1000-character content cap holds on the live-scrape path
(HTTP 200 with at least one usable post): every returned review has content of
length at most 1000.  On the placeholder-substitution path the contents are
fixed templates filled with the place name and city without truncation, so the
cap holds there only when the filled templates are short enough. -/
theorem live_reviews_content_capped (place_name city : String) (max_results : Nat)
    (posts : List RedditPost) (h : parsedRedditReviews posts ≠ []) :
    ∀ r ∈ search_place_reviews (RedditOutcome.resp 200 posts) place_name city max_results,
      r.content.length ≤ 1000 := by
  intro r hr
  unfold search_place_reviews at hr
  simp only [ne_eq, not_true_eq_false, reduceIte, if_neg h] at hr
  have h1 : r ∈ (parsedRedditReviews posts).mergeSort (fun a b => b.score ≤ a.score) :=
    List.mem_of_mem_take hr
  have h2 : r ∈ parsedRedditReviews posts := List.mem_mergeSort.mp h1
  obtain ⟨post, _, hsome⟩ := List.mem_filterMap.mp h2
  by_cases hc : pyStrip (post.title ++ "\n\n" ++ post.selftext) ≠ "" ∧
      50 < (pyStrip (post.title ++ "\n\n" ++ post.selftext)).length
  · rw [if_pos hc] at hsome
    cases hsome
    exact pySlice_length_le 1000 _
  · rw [if_neg hc] at hsome
    cases hsome

set_option maxRecDepth 40000 in
/-- Witness for the amended C9: a post long enough to survive the usability
filter. -/
theorem live_reviews_content_capped_witness :
    parsedRedditReviews
      [⟨"An unusually detailed review of this lovely quiet cafe near the park",
        "The coffee was excellent and the seating generous.", "u", 7, 1⟩] ≠ [] ∧
    ∀ r ∈ search_place_reviews
      (RedditOutcome.resp 200
        [⟨"An unusually detailed review of this lovely quiet cafe near the park",
          "The coffee was excellent and the seating generous.", "u", 7, 1⟩])
      "Third Wave" "Pune" 5,
      r.content.length ≤ 1000 :=
  ⟨by decide, live_reviews_content_capped "Third Wave" "Pune" 5 _ (by decide)⟩

/-! ## C5: parse failures go straight to the deterministic fallback -/

/-- Counterexample to C5 as stated: when the LLM response cannot be parsed,
`process_place_reviews` does return the deterministic fallback without any
retry, but `_parse_llm_response` computes that fallback with EMPTY name and
category (`_get_default_processing("", "")`), not with the name and category
of the place being processed — so for a bar the claimed tag and emoji tables
for "bar" are never consulted. -/
theorem parse_failure_wrong_fallback :
    process_place_reviews pyDedup (fun _ => none)
      ⟨Except.ok "no json here", Except.ok "also no json"⟩ "Blue Bar" "bar"
      [⟨"reddit", "Great cocktails and cozy vibes", "u", 1, 0⟩] ≠
    _get_default_processing pyDedup "Blue Bar" "bar" := by
  decide

/-- C5 amended: for non-empty joined review text, if the primary LLM call
succeeds but its response cannot be parsed (no braces, or `json.loads`
fails on the extracted span), `process_place_reviews` performs no retry —
the result is the same for every retry outcome — and returns the
deterministic fallback computed with empty place name and empty category
(the generic tag and emoji branch), not the fallback for the given place
name and category. -/
theorem parse_failure_empty_fallback (setOrder : List String → List String)
    (loads : String → Option JsonShape) (retry : Except String String)
    (place_name place_category response : String) (reviews : List Review)
    (hne : pyStrip (pyJoin "\n\n" (reviews.map Review.content)) ≠ "")
    (hparse : ∀ s, extractJsonSpan response = some s → loads s = none) :
    process_place_reviews setOrder loads ⟨Except.ok response, retry⟩
      place_name place_category reviews =
    _get_default_processing setOrder "" "" := by
  unfold process_place_reviews
  simp only [if_neg hne]
  unfold _parse_llm_response
  cases h : extractJsonSpan response with
  | none => rfl
  | some s =>
    simp only
    rw [hparse s h]

/-- Witness for the amended C5: a brace-free response with a decoder that
never succeeds. -/
theorem parse_failure_empty_fallback_witness :
    process_place_reviews pyDedup (fun _ => none)
      ⟨Except.ok "hello", Except.ok "retry text"⟩ "Blue Bar" "bar"
      [⟨"reddit", "Great cocktails and cozy vibes", "u", 1, 0⟩] =
    _get_default_processing pyDedup "" "" :=
  parse_failure_empty_fallback pyDedup (fun _ => none) (Except.ok "retry text")
    "Blue Bar" "bar" "hello" _ (by decide)
    (fun s hs => absurd hs (by rw [show extractJsonSpan "hello" = none from by decide]; exact fun h => Option.noConfusion h))

/-! ## C3: insert-or-skip uniqueness -/

/-- A surviving batch entry has a non-empty key, a key absent from the
pre-call store, and carries the original fields of its batch entry. -/
theorem insertCandidate_eq_some (now : Nat) (store : List PlaceDoc)
    (place_data d : PlaceDoc)
    (h : insertCandidate now store place_data = some d) :
    place_data.original.fsq_id ≠ "" ∧
    (∀ s ∈ store, s.original.fsq_id ≠ place_data.original.fsq_id) ∧
    d.original = place_data.original := by
  unfold insertCandidate at h
  split at h
  · cases h
  · split at h
    · cases h
    · cases h
      refine ⟨by assumption, ?_, rfl⟩
      intro s hs heq
      rename_i hne hany
      exact hany (List.any_eq_true.mpr ⟨s, hs, by simp [heq]⟩)

/-- The keys of the documents a bulk insert appends form a sublist of the
non-empty keys of the batch. -/
theorem insertDocs_ids_sublist (now : Nat) (store : List PlaceDoc)
    (batch : List PlaceDoc) :
    ((batch.filterMap (insertCandidate now store)).map
        (fun d => d.original.fsq_id)).Sublist
      ((batch.map (fun d => d.original.fsq_id)).filter (fun i => i ≠ "")) := by
  induction batch with
  | nil => simp
  | cons p rest ih =>
    simp only [List.filterMap_cons, List.map_cons, List.filter_cons]
    cases hc : insertCandidate now store p with
    | none =>
      by_cases hid : p.original.fsq_id = ""
      · simpa [hid] using ih
      · simpa [hid] using ih.cons p.original.fsq_id
    | some d =>
      obtain ⟨hne, _, horig⟩ := insertCandidate_eq_some now store p d hc
      have hid : d.original.fsq_id = p.original.fsq_id := by rw [horig]
      simp only [List.map_cons, hid]
      simpa [hne] using ih.cons₂ p.original.fsq_id

/-- C3 amended: for EVERY store state and batch, `bulk_insert_places` never
touches the documents already in the store (they remain, unmodified, as the
prefix of the post-call store) and never inserts a document whose key already
exists in the pre-call store; and — this proviso only for the uniqueness
invariant — when the pre-call store has at most one document per non-empty
external id and the batch entries carry pairwise distinct non-empty external
ids, the post-call store again has at most one document per non-empty
external id.  (The claim as frozen is falsified by a batch that repeats an
external id absent from the store: every existence check runs against the
pre-call store, so both copies are inserted — see the counterexample.) -/
theorem bulk_insert_or_skip (now : Nat) (store batch : List PlaceDoc) :
    (bulk_insert_places now store batch).2.take store.length = store ∧
    (∀ k, (∃ d ∈ store, d.original.fsq_id = k) →
      ∀ d ∈ (bulk_insert_places now store batch).2.drop store.length,
        d.original.fsq_id ≠ k) ∧
    (((store.map (fun d => d.original.fsq_id)).filter (fun i => i ≠ "")).Nodup →
      ((batch.map (fun d => d.original.fsq_id)).filter (fun i => i ≠ "")).Nodup →
      (((bulk_insert_places now store batch).2.map
        (fun d => d.original.fsq_id)).filter (fun i => i ≠ "")).Nodup) := by
  unfold bulk_insert_places
  simp only
  refine ⟨List.take_left store _, ?_, ?_⟩
  · intro k hk d hd heq
    rw [List.drop_left store _] at hd
    obtain ⟨p, _, hc⟩ := List.mem_filterMap.mp hd
    obtain ⟨_, habsent, horig⟩ := insertCandidate_eq_some now store p d hc
    obtain ⟨d0, hd0, hd0k⟩ := hk
    exact habsent d0 hd0 (by rw [hd0k, ← heq, horig])
  · intro hstore hbatch
    rw [List.map_append, List.filter_append]
    have hids := insertDocs_ids_sublist now store batch
    have hdocs_ne : ∀ i ∈ (batch.filterMap (insertCandidate now store)).map
        (fun d => d.original.fsq_id), i ≠ "" := by
      intro i hi
      obtain ⟨d, hd, hdi⟩ := List.mem_map.mp hi
      obtain ⟨p, _, hc⟩ := List.mem_filterMap.mp hd
      obtain ⟨hne, _, horig⟩ := insertCandidate_eq_some now store p d hc
      rw [← hdi, horig]
      exact hne
    have hfilter_eq : ((batch.filterMap (insertCandidate now store)).map
        (fun d => d.original.fsq_id)).filter (fun i => i ≠ "") =
        (batch.filterMap (insertCandidate now store)).map (fun d => d.original.fsq_id) :=
      List.filter_eq_self.mpr (fun i hi => by simpa using hdocs_ne i hi)
    rw [hfilter_eq]
    refine List.Nodup.append hstore (List.Nodup.sublist hids hbatch) ?_
    intro i hist hidocs
    obtain ⟨s, hs, hsi⟩ := List.mem_map.mp (List.mem_of_mem_filter hist)
    obtain ⟨d, hd, hdi⟩ := List.mem_map.mp hidocs
    obtain ⟨p, _, hc⟩ := List.mem_filterMap.mp hd
    obtain ⟨_, habsent, horig⟩ := insertCandidate_eq_some now store p d hc
    exact habsent s hs (by rw [hsi, ← hdi, horig])

/-- A concrete place payload used to exercise `bulk_insert_places`. -/
def samplePlaceData : PlaceDoc :=
  ⟨⟨"4sq-1", "Cafe One", "cafe", "12 Main St", "Central", "Delhi", "IN", "", ""⟩,
   ⟨[], [], "", []⟩, [], 0, 0⟩

/-- A second place payload with a distinct external id. -/
def samplePlaceData2 : PlaceDoc :=
  ⟨⟨"4sq-2", "Bar Two", "bar", "9 Side St", "South", "Delhi", "IN", "", ""⟩,
   ⟨[], [], "", []⟩, [], 0, 0⟩

/-- A place payload with a falsy external id (skipped by the insert). -/
def samplePlaceDataNoId : PlaceDoc :=
  ⟨⟨"", "Nameless", "cafe", "", "", "Delhi", "IN", "", ""⟩,
   ⟨[], [], "", []⟩, [], 0, 0⟩

/-- Counterexample to C3 as stated: a single `bulk_insert_places` call whose
batch repeats an external id absent from the store inserts BOTH copies —
every existence check runs against the pre-call store, before the single
`insert_many` — so after the call the store holds two places with external id
"4sq-1". -/
theorem bulk_insert_duplicate_in_batch :
    ((bulk_insert_places 0 [] [samplePlaceData, samplePlaceData]).2.map
      (fun d => d.original.fsq_id)) = ["4sq-1", "4sq-1"] ∧
    ¬ (((bulk_insert_places 0 [] [samplePlaceData, samplePlaceData]).2.map
      (fun d => d.original.fsq_id)).Nodup) := by
  decide

/-- Witness for the amended C3: a store holding "4sq-1" and a batch carrying
a duplicate of it, a fresh id and an id-less entry. -/
theorem bulk_insert_or_skip_witness :
    (bulk_insert_places 7 [samplePlaceData]
      [samplePlaceData, samplePlaceData2, samplePlaceDataNoId]).2.take
        [samplePlaceData].length = [samplePlaceData] ∧
    (∀ k, (∃ d ∈ [samplePlaceData], d.original.fsq_id = k) →
      ∀ d ∈ (bulk_insert_places 7 [samplePlaceData]
        [samplePlaceData, samplePlaceData2, samplePlaceDataNoId]).2.drop
          [samplePlaceData].length,
        d.original.fsq_id ≠ k) ∧
    ((([samplePlaceData].map (fun d => d.original.fsq_id)).filter
        (fun i => i ≠ "")).Nodup →
      ((([samplePlaceData, samplePlaceData2, samplePlaceDataNoId].map
        (fun d => d.original.fsq_id)).filter (fun i => i ≠ "")).Nodup →
      (((bulk_insert_places 7 [samplePlaceData]
          [samplePlaceData, samplePlaceData2, samplePlaceDataNoId]).2.map
        (fun d => d.original.fsq_id)).filter (fun i => i ≠ "")).Nodup)) :=
  bulk_insert_or_skip 7 [samplePlaceData]
    [samplePlaceData, samplePlaceData2, samplePlaceDataNoId]

/-! ## C10: count consistency, and C1: cache-first short-circuit -/

/-- C10: in every return branch of `search_places_with_fallback` — the
database-hit branch, the `database_only` branch, the database-plus-provider
branch, and the error branch — the returned `count` equals the length of the
returned `places` list, whatever the store state, the inputs and the
collaborator outcomes. -/
theorem search_count_eq_places_length (setOrder : List String → List String)
    (loads : String → Option JsonShape) (now : Nat) (store : List PlaceDoc)
    (city category : String) (vibe_tags : List String) (min_results : Nat)
    (tomtomOf : String → String → Nat → List RawPlace)
    (reviewsOf : String → List Review) (llmFor : String → LLMEnv)
    (insertFail : Option String) :
    (search_places_with_fallback setOrder loads now store city category vibe_tags
      min_results tomtomOf reviewsOf llmFor insertFail).1.count =
    (search_places_with_fallback setOrder loads now store city category vibe_tags
      min_results tomtomOf reviewsOf llmFor insertFail).1.places.length := by
  unfold search_places_with_fallback
  simp only
  split
  · rfl
  · split
    · rfl
    · split
      · rfl
      · rfl

/-- C1: whenever the store already holds at least `min_results` places
matching the city exactly, the category as a case-insensitive substring and
(when given) at least one vibe tag, `search_places_with_fallback` returns
immediately with success, source "database", `fallback_used = false`,
exactly the matched set as `places` (with its length as `count`), and the
store unchanged.  The right-hand side mentions none of `tomtomOf`,
`reviewsOf`, `llmFor`, `insertFail`: the result is one fixed value for every
behaviour of the place-search provider, the review scrapers, the enrichment
step and the store insert, which is the shallow-embedding statement that
none of them is invoked. -/
theorem cache_first_short_circuit (setOrder : List String → List String)
    (loads : String → Option JsonShape) (now : Nat) (store : List PlaceDoc)
    (city category : String) (vibe_tags : List String) (min_results : Nat)
    (tomtomOf : String → String → Nat → List RawPlace)
    (reviewsOf : String → List Review) (llmFor : String → LLMEnv)
    (insertFail : Option String)
    (h : min_results ≤ (_search_existing_places store city category vibe_tags).length) :
    search_places_with_fallback setOrder loads now store city category vibe_tags
      min_results tomtomOf reviewsOf llmFor insertFail =
    ({ success := true
       source := some "database"
       places := _search_existing_places store city category vibe_tags
       count := (_search_existing_places store city category vibe_tags).length
       fallback_used := some false
       error := none
       tomtom_fetched := none
       reddit_reviews_scraped := none
       tripadvisor_reviews_scraped := none }, store) := by
  unfold search_places_with_fallback
  simp only
  rw [if_pos h]

/-- Witness for C1: one stored cafe in Delhi satisfies `min_results = 1`, and
the call returns the database branch untouched for arbitrary collaborator
oracles. -/
theorem cache_first_short_circuit_witness :
    search_places_with_fallback pyDedup (fun _ => none) 0 [samplePlaceData]
      "Delhi" "cafe" [] 1 (fun _ _ _ => []) (fun _ => [])
      (fun _ => ⟨Except.error "down", Except.error "down"⟩) none =
    ({ success := true
       source := some "database"
       places := _search_existing_places [samplePlaceData] "Delhi" "cafe" []
       count := (_search_existing_places [samplePlaceData] "Delhi" "cafe" []).length
       fallback_used := some false
       error := none
       tomtom_fetched := none
       reddit_reviews_scraped := none
       tripadvisor_reviews_scraped := none }, [samplePlaceData]) :=
  cache_first_short_circuit pyDedup (fun _ => none) 0 [samplePlaceData]
    "Delhi" "cafe" [] 1 (fun _ _ _ => []) (fun _ => [])
    (fun _ => ⟨Except.error "down", Except.error "down"⟩) none (by decide)

/-! ## C2: refiner quota law -/

/-- Shape facts for a loop exit that did not hit the quota. -/
theorem refine_branch_nonquota (l : List String) (r : StopReason) (m : Nat)
    (hl : l.length < m) (hr : r ≠ StopReason.quota) :
    l.length ≤ m ∧ (r = StopReason.quota → l = l.take m ∧ l.length = m) ∧
    (l.length < m ↔ r ≠ StopReason.quota) :=
  ⟨Nat.le_of_lt hl, fun h => absurd h hr, ⟨fun _ => hr, fun _ => hl⟩⟩

/-- Shape facts for the quota exit. -/
theorem refine_branch_quota (l : List String) (m : Nat) (h : m ≤ l.length) :
    (l.take m).length ≤ m ∧
    (StopReason.quota = StopReason.quota → l.take m = (l.take m : List String) ∧
      (l.take m).length = m) ∧
    ((l.take m).length < m ↔ StopReason.quota ≠ StopReason.quota) := by
  have hlen : (l.take m).length = m := by
    rw [List.length_take]
    exact min_eq_left h
  refine ⟨le_of_eq hlen, fun _ => ⟨rfl, hlen⟩, ?_, ?_⟩
  · intro hlt
    rw [hlen] at hlt
    exact absurd hlt (lt_irrefl m)
  · intro hq
    exact absurd rfl hq

/-- Invariant of the refinement loop: entered with fewer accepted reviews
than the quota, it returns a list of length at most `min_relevant`; the list
is the first `min_relevant` accepted reviews (of length exactly
`min_relevant`) exactly when the loop stopped on the quota check, and is
strictly shorter exactly when it stopped for any other reason. -/
theorem refineLoop_spec (respond : Nat → Nat → List String → Except String String)
    (fetchOf : Nat → Except String (List Review)) (hasFetch : Bool)
    (max_iterations min_relevant : Nat) :
    ∀ (fuel iteration : Nat) (pool accepted : List String),
      accepted.length < min_relevant →
      (refineLoop respond fetchOf hasFetch max_iterations min_relevant fuel
        iteration pool accepted).1.length ≤ min_relevant ∧
      ((refineLoop respond fetchOf hasFetch max_iterations min_relevant fuel
          iteration pool accepted).2.1 = StopReason.quota →
        (refineLoop respond fetchOf hasFetch max_iterations min_relevant fuel
          iteration pool accepted).1 =
          (refineLoop respond fetchOf hasFetch max_iterations min_relevant fuel
            iteration pool accepted).2.2.take min_relevant ∧
        (refineLoop respond fetchOf hasFetch max_iterations min_relevant fuel
          iteration pool accepted).1.length = min_relevant) ∧
      ((refineLoop respond fetchOf hasFetch max_iterations min_relevant fuel
          iteration pool accepted).1.length < min_relevant ↔
        (refineLoop respond fetchOf hasFetch max_iterations min_relevant fuel
          iteration pool accepted).2.1 ≠ StopReason.quota) := by
  intro fuel
  induction fuel with
  | zero =>
    intro iteration pool accepted hacc
    simp only [refineLoop]
    exact refine_branch_nonquota accepted StopReason.neverRan min_relevant hacc
      (by decide)
  | succ f ih =>
    intro iteration pool accepted hacc
    simp only [refineLoop]
    by_cases hq : min_relevant ≤
        (pyDedup (accepted ++
          filter_relevant_reviews_batched respond iteration pool)).length
    · rw [if_pos hq]
      exact refine_branch_quota _ min_relevant hq
    · rw [if_neg hq]
      have hlt := Nat.lt_of_not_le hq
      by_cases hf : hasFetch = true ∧ iteration + 1 < max_iterations
      · rw [if_pos hf]
        cases hfo : fetchOf iteration with
        | error e =>
          exact refine_branch_nonquota _ StopReason.fetchError min_relevant hlt
            (by decide)
        | ok revs =>
          cases revs with
          | nil =>
            exact refine_branch_nonquota _ StopReason.fetchEmpty min_relevant hlt
              (by decide)
          | cons r rs =>
            exact ih (iteration + 1) _ _ hlt
      · rw [if_neg hf]
        exact refine_branch_nonquota _ StopReason.noMore min_relevant hlt
          (by decide)

/-- C2: for every initial review list, batch-classification and fetch oracle
behaviour, and parameters `max_iterations ≥ 1` and `min_relevant ≥ 1`, the
list `refine_reviews_with_llm` returns has length at most `min_relevant`; it
is exactly the first `min_relevant` accepted reviews — of length exactly
`min_relevant` — precisely when the loop stopped because at least
`min_relevant` relevant reviews had been accepted within the allowed
iterations, and it is strictly shorter precisely when the loop stopped for
one of the other reasons: no `more_fn` supplied or iterations exhausted
(`noMore`/`neverRan`), `more_fn` returned nothing (`fetchEmpty`), or
`more_fn` raised (`fetchError`). -/
theorem refine_quota_law (respond : Nat → Nat → List String → Except String String)
    (fetchOf : Nat → Except String (List Review)) (hasFetch : Bool)
    (max_iterations min_relevant : Nat) (initial_reviews : List String)
    (hmax : 1 ≤ max_iterations) (hmin : 1 ≤ min_relevant) :
    (refine_reviews_with_llm respond fetchOf hasFetch max_iterations min_relevant
      initial_reviews).length ≤ min_relevant ∧
    ((refineInstrumented respond fetchOf hasFetch max_iterations min_relevant
        initial_reviews).2.1 = StopReason.quota →
      refine_reviews_with_llm respond fetchOf hasFetch max_iterations min_relevant
        initial_reviews =
        (refineInstrumented respond fetchOf hasFetch max_iterations min_relevant
          initial_reviews).2.2.take min_relevant ∧
      (refine_reviews_with_llm respond fetchOf hasFetch max_iterations min_relevant
        initial_reviews).length = min_relevant) ∧
    ((refine_reviews_with_llm respond fetchOf hasFetch max_iterations min_relevant
        initial_reviews).length < min_relevant ↔
      (refineInstrumented respond fetchOf hasFetch max_iterations min_relevant
        initial_reviews).2.1 ≠ StopReason.quota) :=
  refineLoop_spec respond fetchOf hasFetch max_iterations min_relevant
    max_iterations 0 initial_reviews [] (Nat.lt_of_lt_of_le Nat.zero_lt_one hmin)

/-- Witness for C2: one relevant review and a quota of one, with the fetch
hook absent. -/
theorem refine_quota_law_witness :
    (refine_reviews_with_llm (fun _ _ _ => Except.ok "YES") (fun _ => Except.ok [])
      false 2 1 ["nice spot"]).length ≤ 1 ∧
    ((refineInstrumented (fun _ _ _ => Except.ok "YES") (fun _ => Except.ok [])
        false 2 1 ["nice spot"]).2.1 = StopReason.quota →
      refine_reviews_with_llm (fun _ _ _ => Except.ok "YES") (fun _ => Except.ok [])
        false 2 1 ["nice spot"] =
        (refineInstrumented (fun _ _ _ => Except.ok "YES") (fun _ => Except.ok [])
          false 2 1 ["nice spot"]).2.2.take 1 ∧
      (refine_reviews_with_llm (fun _ _ _ => Except.ok "YES") (fun _ => Except.ok [])
        false 2 1 ["nice spot"]).length = 1) ∧
    ((refine_reviews_with_llm (fun _ _ _ => Except.ok "YES") (fun _ => Except.ok [])
        false 2 1 ["nice spot"]).length < 1 ↔
      (refineInstrumented (fun _ _ _ => Except.ok "YES") (fun _ => Except.ok [])
        false 2 1 ["nice spot"]).2.1 ≠ StopReason.quota) :=
  refine_quota_law (fun _ _ _ => Except.ok "YES") (fun _ => Except.ok []) false 2 1
    ["nice spot"] (by decide) (by decide)
